import Mathlib

/-!
Verification of the notification dispatch and recipient-tracking workflow of
the tp-notif repository (Supabase edge functions plus client services), via a
shallow embedding of the handlers as pure functions over an explicit
database state.

Database round trips that can fail upstream (network or constraint errors
reported by the hosted database) are modelled by explicit Boolean outcome
flags passed to the handlers; the handlers branch on them exactly where the
source inspects the returned error object.
-/

/-- Notification type column (CHECK constraint in the schema,
union type in the edge function). -/
inductive NotifType
  | SLOT_PROPOSAL
  | SLOT_AVAILABLE
  | SLOT_CANCELLED
deriving DecidableEq, Repr

/-- Notification status column: UNREAD, READ, ACCEPTED, REFUSED. -/
inductive NotifStatus
  | UNREAD
  | READ
  | ACCEPTED
  | REFUSED
deriving DecidableEq, Repr

/-- Recipient action column: ACCEPTED or REFUSED (nullable in the row). -/
inductive RecipientAction
  | ACCEPTED
  | REFUSED
deriving DecidableEq, Repr

/-- Slot fields of the send-notification payload. -/
structure Slot where
  date : String
  startTime : String
  endTime : String
  location : String
  description : Option String
deriving DecidableEq, Repr

/-- Row of the users table (id, email, role, alert preference flag). -/
structure UserRow where
  id : String
  email : String
  role : String
  availability_alerts_enabled : Bool
deriving DecidableEq, Repr

/-- Row of the push_subscriptions table. -/
structure SubscriptionRow where
  id : String
  user_id : String
  endpoint : String
  p256dh_key : String
  auth_key : String
  last_used_at : String
deriving DecidableEq, Repr

/-- Row of the notifications table. -/
structure NotificationRow where
  id : String
  type : NotifType
  status : NotifStatus
  slot_date : String
  slot_time_start : String
  slot_time_end : String
  slot_location : String
  slot_description : Option String
  sent_by : String
deriving DecidableEq, Repr

/-- Row of the notification_recipients table. -/
structure RecipientRow where
  notification_id : String
  user_id : String
  received : Bool
  clicked : Bool
  clicked_at : Option String
  action : Option RecipientAction
  action_at : Option String
deriving DecidableEq, Repr

/-- The four relational tables the handlers touch, as ordered row lists. -/
structure DB where
  users : List UserRow
  push_subscriptions : List SubscriptionRow
  notifications : List NotificationRow
  notification_recipients : List RecipientRow
deriving DecidableEq, Repr

/-- Body of a send-notification request. Optional fields model fields that
may be absent from the JSON body (the handler checks them for falsiness). -/
structure SendNotificationPayload where
  type : Option NotifType
  slot : Option Slot
  recipientIds : Option (List String)
  slotId : Option String
deriving DecidableEq, Repr

/-- One entry of the failedReasons array of the delivery report. -/
structure FailedReason where
  userId : String
  email : String
  reason : String
deriving DecidableEq, Repr

/-- Delivery report returned by send-notification on success. -/
structure DeliveryReport where
  notificationId : String
  totalRecipients : Nat
  pushNotificationsSent : Nat
  failedDeliveries : Nat
  failedReasons : Option (List FailedReason)
deriving DecidableEq, Repr

/-- Outcome flags for the fallible database calls of send-notification:
true means the hosted database reported an error for that call. -/
structure DbFailures where
  availableUsersFetchFails : Bool
  cancelledFetchFails : Bool
  notificationInsertFails : Bool
  recipientsInsertFails : Bool
  subscriptionsFetchFails : Bool
deriving DecidableEq, Repr

/-- All database calls succeed. -/
def noDbFailures : DbFailures :=
  ⟨false, false, false, false, false⟩

/-- Result of a send-notification request: HTTP status, database state after
the request, and the delivery report on the 200 path. -/
structure SendResult where
  status : Nat
  db : DB
  report : Option DeliveryReport
deriving DecidableEq, Repr

/-- Recipient resolution switch of send-notification: explicit id list for
SLOT_PROPOSAL (rejected when absent, empty, or longer than 10), the users
with the alert flag for SLOT_AVAILABLE, and the user ids of recipient rows
of the given slot whose action is ACCEPTED for SLOT_CANCELLED. Errors carry
the HTTP status the handler responds with (thrown fetch errors are caught
at the top level and mapped to 500). -/
def resolveRecipients (db : DB) (payload : SendNotificationPayload)
    (fail : DbFailures) : Except Nat (List String) :=
  match payload.type with
  | none => .error 400
  | some NotifType.SLOT_PROPOSAL =>
    match payload.recipientIds with
    | none => .error 400
    | some ids =>
      if ids.length = 0 then .error 400
      else if ids.length > 10 then .error 400
      else .ok ids
  | some NotifType.SLOT_AVAILABLE =>
    if fail.availableUsersFetchFails then .error 500
    else .ok ((db.users.filter
      (fun u => u.availability_alerts_enabled)).map (fun u => u.id))
  | some NotifType.SLOT_CANCELLED =>
    match payload.slotId with
    | none => .error 400
    | some sid =>
      if fail.cancelledFetchFails then .error 500
      else .ok ((db.notification_recipients.filter
        (fun r => r.notification_id == sid
          && r.action == some RecipientAction.ACCEPTED)).map
        (fun r => r.user_id))

/-- Slot description as stored: the source coerces a falsy description
(absent or empty string) to null. -/
def descOrNull : Option String → Option String
  | none => none
  | some d => if d = "" then none else some d

/-- Update marking the recipient row of the given (notification, user) pair
as received, as performed inside the push delivery loop. -/
def markReceived (recips : List RecipientRow) (nid uid : String) :
    List RecipientRow :=
  recips.map (fun r =>
    if r.notification_id == nid && r.user_id == uid then
      { r with received := true }
    else r)

/-- Push delivery loop over the fetched subscriptions: for each one, the
recipient row of (new notification, subscriber) is marked received. -/
def deliverLoop (recips : List RecipientRow) (nid : String)
    (subs : List SubscriptionRow) : List RecipientRow :=
  subs.foldl (fun acc s => markReceived acc nid s.user_id) recips

/-- Subscriptions fetched for the delivery loop: rows whose user_id is in
the resolved recipient list, inner-joined with the users table. -/
def fetchSubscriptions (db : DB) (recipientIds : List String) :
    List SubscriptionRow :=
  db.push_subscriptions.filter (fun s =>
    recipientIds.contains s.user_id
      && db.users.any (fun u => u.id == s.user_id))

/-- The send-notification edge function. In order: authorization header
check (401), token resolution (401), admin role check against the users
table (403), payload field check (400), recipient resolution (400 or 500),
empty recipient set check (400), notification insert, recipient rows
insert, subscription fetch (errors only logged), and the push delivery
loop. The loop body only logs and issues an update whose error object is
ignored, so its catch branch is unreachable: the sent counter equals the
number of fetched subscriptions and the failure counter stays 0. -/
def sendNotification (db : DB) (authHeader : Option String)
    (authUser : Option String) (payload : SendNotificationPayload)
    (newId : String) (fail : DbFailures) : SendResult :=
  match authHeader with
  | none => ⟨401, db, none⟩
  | some _ =>
    match authUser with
    | none => ⟨401, db, none⟩
    | some uid =>
      match db.users.find? (fun u => u.id == uid) with
      | none => ⟨403, db, none⟩
      | some urow =>
        if urow.role = "admin" then
          match payload.type, payload.slot with
          | none, _ => ⟨400, db, none⟩
          | some _, none => ⟨400, db, none⟩
          | some t, some slot =>
            match resolveRecipients db payload fail with
            | .error s => ⟨s, db, none⟩
            | .ok recipientIds =>
              if recipientIds.length = 0 then ⟨400, db, none⟩
              else if fail.notificationInsertFails then ⟨500, db, none⟩
              else
                let notifRow : NotificationRow :=
                  ⟨newId, t, NotifStatus.UNREAD, slot.date, slot.startTime,
                    slot.endTime, slot.location, descOrNull slot.description,
                    uid⟩
                let db1 : DB :=
                  { db with notifications := db.notifications ++ [notifRow] }
                if fail.recipientsInsertFails then ⟨500, db1, none⟩
                else
                  let newRecips : List RecipientRow :=
                    recipientIds.map (fun rid =>
                      ⟨newId, rid, false, false, none, none, none⟩)
                  let db2 : DB :=
                    { db1 with notification_recipients :=
                        db1.notification_recipients ++ newRecips }
                  let subs : List SubscriptionRow :=
                    if fail.subscriptionsFetchFails then []
                    else fetchSubscriptions db recipientIds
                  let db3 : DB :=
                    { db2 with notification_recipients :=
                        deliverLoop db2.notification_recipients newId subs }
                  ⟨200, db3,
                    some ⟨newId, recipientIds.length, subs.length, 0, none⟩⟩
        else ⟨403, db, none⟩

/-- Body of a subscribe request: endpoint and the two encryption keys.
The source checks each for JavaScript falsiness, so a missing field and an
empty string behave identically and are both modelled as the empty
string. -/
structure SubscribePayload where
  endpoint : String
  p256dh : String
  auth : String
deriving DecidableEq, Repr

/-- Result of a subscribe request: HTTP status, database state after the
request, and the id field of the JSON response when present. -/
structure SubscribeResult where
  status : Nat
  db : DB
  returnedId : Option String
deriving DecidableEq, Repr

/-- The subscribe edge function: authorization checks (401), payload field
check (400), then a lookup of the endpoint among existing subscriptions.
When a row with that endpoint exists its last_used_at is refreshed and the
response is 200 with the existing id; otherwise a new row is inserted and
the response is 201 with its id (500 when that insert fails upstream). -/
def subscribe (db : DB) (authHeader : Option String)
    (authUser : Option String) (payload : SubscribePayload)
    (newId : String) (now : String) (insertFails : Bool) : SubscribeResult :=
  match authHeader with
  | none => ⟨401, db, none⟩
  | some _ =>
    match authUser with
    | none => ⟨401, db, none⟩
    | some uid =>
      if payload.endpoint = "" ∨ payload.p256dh = "" ∨ payload.auth = ""
      then ⟨400, db, none⟩
      else
        match db.push_subscriptions.find?
          (fun s => s.endpoint == payload.endpoint) with
        | some existing =>
          ⟨200,
            { db with push_subscriptions := db.push_subscriptions.map (fun s =>
                  if s.endpoint == payload.endpoint then
                    { s with last_used_at := now }
                  else s) },
            some existing.id⟩
        | none =>
          if insertFails then ⟨500, db, none⟩
          else
            ⟨201,
              { db with push_subscriptions := db.push_subscriptions ++
                  [⟨newId, uid, payload.endpoint, payload.p256dh,
                    payload.auth, now⟩] },
              some newId⟩

/-- Result of a tracking request: HTTP status and database state. -/
structure TrackResult where
  status : Nat
  db : DB
deriving DecidableEq, Repr

/-- Database effect of the track-click update: recipient rows matching the
(notification, user) pair get clicked = true and clicked_at = now. -/
def clickUpdate (db : DB) (nid uid now : String) : DB :=
  { db with notification_recipients := db.notification_recipients.map (fun r =>
        if r.notification_id == nid && r.user_id == uid then
          { r with clicked := true, clicked_at := some now }
        else r) }

/-- The track-click edge function. It builds an anonymous client and never
inspects the authorization header (the header parameter is ignored below
exactly as the source ignores it); it checks the two body fields for
falsiness (400), then updates the matching recipient rows. An update that
matches zero rows is not an error for the hosted database, so the handler
still responds 200 with the state unchanged. -/
def trackClick (db : DB) (authHeader : Option String)
    (notification_id user_id : String) (now : String)
    (updateFails : Bool) : TrackResult :=
  if notification_id = "" ∨ user_id = "" then ⟨400, db⟩
  else if updateFails then ⟨500, db⟩
  else ⟨200, clickUpdate db notification_id user_id now⟩

/-- Database effect of the track-read update: the notification row with the
given id gets status READ (the predicate is the notification id alone). -/
def readUpdate (db : DB) (nid : String) : DB :=
  { db with notifications := db.notifications.map (fun n =>
        if n.id == nid then { n with status := NotifStatus.READ } else n) }

/-- The track-read edge function: authorization checks (401), body field
check (400), then the status update on the notifications table. -/
def trackRead (db : DB) (authHeader : Option String)
    (authUser : Option String) (notification_id : String)
    (updateFails : Bool) : TrackResult :=
  match authHeader with
  | none => ⟨401, db⟩
  | some _ =>
    match authUser with
    | none => ⟨401, db⟩
    | some _ =>
      if notification_id = "" then ⟨400, db⟩
      else if updateFails then ⟨500, db⟩
      else ⟨200, readUpdate db notification_id⟩

/-- Field-wise update record accepted by
SupabaseService.updateNotificationRecipient: absent fields are left
untouched by the update. -/
structure RecipientUpdates where
  received : Option Bool
  clicked : Option Bool
  clicked_at : Option String
  action : Option RecipientAction
  action_at : Option String
deriving DecidableEq, Repr

/-- Application of a field-wise update record to one recipient row. -/
def applyRecipientUpdates (u : RecipientUpdates) (r : RecipientRow) :
    RecipientRow :=
  { r with
    received := u.received.getD r.received
    clicked := u.clicked.getD r.clicked
    clicked_at := match u.clicked_at with
      | some t => some t
      | none => r.clicked_at
    action := match u.action with
      | some a => some a
      | none => r.action
    action_at := match u.action_at with
      | some t => some t
      | none => r.action_at }

/-- Database effect of SupabaseService.updateNotificationRecipient: the
field-wise update is applied to the recipient rows matching the notification
id and the id of the current user. -/
def updateNotificationRecipient (db : DB) (notificationId userId : String)
    (u : RecipientUpdates) : DB :=
  { db with notification_recipients := db.notification_recipients.map (fun r =>
        if r.notification_id == notificationId && r.user_id == userId then
          applyRecipientUpdates u r
        else r) }

/-- Recording an accept or refuse answer: the field-wise update carrying the
action and its timestamp, as described for the recipient row. -/
def recordAction (db : DB) (nid uid : String) (act : RecipientAction)
    (now : String) : DB :=
  updateNotificationRecipient db nid uid ⟨none, none, none, some act, some now⟩

/-! Helper lemmas about the list operations the handlers use. -/

/-- A map whose function is pointwise idempotent on the list is idempotent. -/
theorem map_idem_of_pointwise {α : Type} (f : α → α) (l : List α)
    (h : ∀ a ∈ l, f (f a) = f a) : (l.map f).map f = l.map f := by
  induction l with
  | nil => rfl
  | cons a t ih =>
    simp only [List.map_cons, List.cons.injEq]
    exact ⟨h a (by simp), ih (fun x hx => h x (by simp [hx]))⟩

/-- A list is pointwise related to its image under a map. -/
theorem forall₂_map_self {α : Type} (R : α → α → Prop) (f : α → α)
    (l : List α) (h : ∀ a ∈ l, R a (f a)) : List.Forall₂ R l (l.map f) := by
  induction l with
  | nil => exact List.Forall₂.nil
  | cons a t ih =>
    exact List.Forall₂.cons (h a (by simp))
      (ih (fun x hx => h x (by simp [hx])))

/-- Marking a recipient row received preserves the number of rows. -/
theorem length_markReceived (recips : List RecipientRow) (nid uid : String) :
    (markReceived recips nid uid).length = recips.length := by
  simp [markReceived]

/-- The delivery loop preserves the number of recipient rows. -/
theorem length_deliverLoop (subs : List SubscriptionRow)
    (recips : List RecipientRow) (nid : String) :
    (deliverLoop recips nid subs).length = recips.length := by
  induction subs generalizing recips with
  | nil => rfl
  | cons s rest ih =>
    simp only [deliverLoop, List.foldl_cons]
    rw [show List.foldl (fun acc s => markReceived acc nid s.user_id)
      (markReceived recips nid s.user_id) rest
      = deliverLoop (markReceived recips nid s.user_id) nid rest from rfl]
    rw [ih, length_markReceived]

/-- C6: for every SLOT_CANCELLED dispatch with a given slot id, the resolved
recipient set equals exactly the set of users whose recipient row for the
notification of that slot has action = ACCEPTED. -/
theorem resolveRecipients_slotCancelled_acceptors
    (db : DB) (payload : SendNotificationPayload) (fail : DbFailures)
    (sid : String)
    (htype : payload.type = some NotifType.SLOT_CANCELLED)
    (hsid : payload.slotId = some sid)
    (hfetch : fail.cancelledFetchFails = false) :
    ∃ ids, resolveRecipients db payload fail = Except.ok ids ∧
      ∀ x, x ∈ ids ↔ ∃ r ∈ db.notification_recipients,
        r.notification_id = sid ∧ r.action = some RecipientAction.ACCEPTED ∧
        r.user_id = x := by
  refine ⟨(db.notification_recipients.filter
    (fun r => r.notification_id == sid
      && r.action == some RecipientAction.ACCEPTED)).map
    (fun r => r.user_id), ?_, ?_⟩
  · simp [resolveRecipients, htype, hsid, hfetch]
  · intro x
    simp only [List.mem_map, List.mem_filter, Bool.and_eq_true, beq_iff_eq]
    constructor
    · rintro ⟨r, ⟨hr, hid, hact⟩, hx⟩
      exact ⟨r, hr, hid, hact, hx⟩
    · rintro ⟨r, hr, hid, hact, hx⟩
      exact ⟨r, ⟨hr, hid, hact⟩, hx⟩

/-- C7: for every SLOT_AVAILABLE dispatch, the resolved recipient set equals
the set of users whose availability_alerts_enabled flag is true in the
database state read at dispatch time (the table is read once; the model
threads that single snapshot). -/
theorem resolveRecipients_slotAvailable_alert_users
    (db : DB) (payload : SendNotificationPayload) (fail : DbFailures)
    (htype : payload.type = some NotifType.SLOT_AVAILABLE)
    (hfetch : fail.availableUsersFetchFails = false) :
    ∃ ids, resolveRecipients db payload fail = Except.ok ids ∧
      ∀ x, x ∈ ids ↔ ∃ u ∈ db.users,
        u.availability_alerts_enabled = true ∧ u.id = x := by
  refine ⟨(db.users.filter
    (fun u => u.availability_alerts_enabled)).map (fun u => u.id), ?_, ?_⟩
  · simp [resolveRecipients, htype, hfetch]
  · intro x
    simp only [List.mem_map, List.mem_filter]
    constructor
    · rintro ⟨u, ⟨hu, hflag⟩, hx⟩
      exact ⟨u, hu, hflag, hx⟩
    · rintro ⟨u, hu, hflag, hx⟩
      exact ⟨u, ⟨hu, hflag⟩, hx⟩

/-- Example slot used by concrete instances. -/
def exSlot : Slot :=
  ⟨"2025-06-01", "10:00", "12:00", "Paris 15e", none⟩

/-- Example database with recipient rows for two notifications. -/
def exCancelDb : DB :=
  ⟨[], [], [],
    [⟨"n0", "u1", true, false, none, some RecipientAction.ACCEPTED,
        some "t1"⟩,
      ⟨"n0", "u2", false, false, none, some RecipientAction.REFUSED, none⟩,
      ⟨"n1", "u3", false, false, none, some RecipientAction.ACCEPTED,
        none⟩]⟩

/-- Witness for C6 at a concrete database and slot id. -/
theorem resolveRecipients_slotCancelled_acceptors_witness :
    ∃ ids, resolveRecipients exCancelDb
      ⟨some NotifType.SLOT_CANCELLED, some exSlot, none, some "n0"⟩
      noDbFailures = Except.ok ids ∧
      ∀ x, x ∈ ids ↔ ∃ r ∈ exCancelDb.notification_recipients,
        r.notification_id = "n0" ∧ r.action = some RecipientAction.ACCEPTED ∧
        r.user_id = x :=
  resolveRecipients_slotCancelled_acceptors exCancelDb
    ⟨some NotifType.SLOT_CANCELLED, some exSlot, none, some "n0"⟩
    noDbFailures "n0" rfl rfl rfl

/-- Example database with users carrying the alert preference flag. -/
def exAlertDb : DB :=
  ⟨[⟨"u1", "u1@x.fr", "user", true⟩,
      ⟨"u2", "u2@x.fr", "user", false⟩,
      ⟨"u3", "u3@x.fr", "admin", true⟩], [], [], []⟩

/-- Witness for C7 at a concrete database. -/
theorem resolveRecipients_slotAvailable_alert_users_witness :
    ∃ ids, resolveRecipients exAlertDb
      ⟨some NotifType.SLOT_AVAILABLE, some exSlot, none, none⟩
      noDbFailures = Except.ok ids ∧
      ∀ x, x ∈ ids ↔ ∃ u ∈ exAlertDb.users,
        u.availability_alerts_enabled = true ∧ u.id = x :=
  resolveRecipients_slotAvailable_alert_users exAlertDb
    ⟨some NotifType.SLOT_AVAILABLE, some exSlot, none, none⟩
    noDbFailures rfl rfl

/-- Empty database. -/
def emptyDb : DB := ⟨[], [], [], []⟩

/-- C5 counterexample: a SLOT_PROPOSAL request supplying the same id twice
resolves to a list that still contains the duplicate, so the resolver
output is not a deduplicated user-id set. -/
theorem resolveRecipients_dedup_counterexample :
    resolveRecipients emptyDb
      ⟨some NotifType.SLOT_PROPOSAL, some exSlot, some ["u1", "u1"], none⟩
      noDbFailures = Except.ok ["u1", "u1"] ∧
    ¬ (["u1", "u1"] : List String).Nodup :=
  ⟨rfl, by decide⟩

/-- C5 amended: the resolver output is duplicate-free for SLOT_AVAILABLE
when user ids are distinct and for SLOT_CANCELLED when recipient rows are
unique per (notification, user) pair; for SLOT_PROPOSAL the supplied
recipientIds list is passed through unchanged, so duplicates supplied by
the caller are not removed. -/
theorem resolveRecipients_dedup_amended
    (db : DB) (payload : SendNotificationPayload) (fail : DbFailures) :
    (payload.type = some NotifType.SLOT_AVAILABLE →
      (db.users.map (fun u => u.id)).Nodup →
      ∀ ids, resolveRecipients db payload fail = Except.ok ids →
        ids.Nodup) ∧
    (payload.type = some NotifType.SLOT_CANCELLED →
      (db.notification_recipients.map
        (fun r => (r.notification_id, r.user_id))).Nodup →
      ∀ ids, resolveRecipients db payload fail = Except.ok ids →
        ids.Nodup) ∧
    (∀ givenIds, payload.type = some NotifType.SLOT_PROPOSAL →
      payload.recipientIds = some givenIds →
      ∀ ids, resolveRecipients db payload fail = Except.ok ids →
        ids = givenIds) := by
  refine ⟨?_, ?_, ?_⟩
  · intro htype hnodup ids hres
    by_cases hf : fail.availableUsersFetchFails
    · simp [resolveRecipients, htype, hf] at hres
    · simp only [resolveRecipients, htype, hf, if_false, Bool.false_eq_true,
        ite_false, Except.ok.injEq] at hres
      subst hres
      exact List.Nodup.sublist
        ((List.filter_sublist _).map _) hnodup
  · intro htype hnodup ids hres
    rcases hsid : payload.slotId with _ | sid
    · simp [resolveRecipients, htype, hsid] at hres
    · by_cases hf : fail.cancelledFetchFails
      · simp [resolveRecipients, htype, hsid, hf] at hres
      · simp only [resolveRecipients, htype, hsid, hf, Bool.false_eq_true,
          ite_false, Except.ok.injEq] at hres
        subst hres
        have hpairs : ((db.notification_recipients.filter
            (fun r => r.notification_id == sid
              && r.action == some RecipientAction.ACCEPTED)).map
            (fun r => (r.notification_id, r.user_id))).Nodup :=
          List.Nodup.sublist ((List.filter_sublist _).map _) hnodup
        have hinj := List.inj_on_of_nodup_map hpairs
        refine List.Nodup.map_on ?_ (List.Nodup.of_map _ hpairs)
        intro x hx y hy hxy
        have hxsid : x.notification_id = sid := by
          have := (List.mem_filter.mp hx).2
          simp only [Bool.and_eq_true, beq_iff_eq] at this
          exact this.1
        have hysid : y.notification_id = sid := by
          have := (List.mem_filter.mp hy).2
          simp only [Bool.and_eq_true, beq_iff_eq] at this
          exact this.1
        exact hinj hx hy (by rw [hxsid, hysid, hxy])
  · intro givenIds htype hrid ids hres
    by_cases h0 : givenIds.length = 0
    · simp [resolveRecipients, htype, hrid, h0] at hres
    · by_cases h10 : givenIds.length > 10
      · simp [resolveRecipients, htype, hrid, h0, h10] at hres
      · simp only [resolveRecipients, htype, hrid, h0, h10, ite_false,
          Except.ok.injEq] at hres
        exact hres.symm

/-- Witness for the amended C5 at a concrete database and request. -/
theorem resolveRecipients_dedup_amended_witness :
    ∀ ids, resolveRecipients exAlertDb
      ⟨some NotifType.SLOT_AVAILABLE, some exSlot, none, none⟩
      noDbFailures = Except.ok ids → ids.Nodup :=
  (resolveRecipients_dedup_amended exAlertDb
    ⟨some NotifType.SLOT_AVAILABLE, some exSlot, none, none⟩
    noDbFailures).1 rfl (by decide)

/-- C3: a SLOT_PROPOSAL dispatch with 11 distinct recipient ids is rejected
with 400 before any insert, whatever the outcome flags of the later
database calls would have been: the database state is returned unchanged
and no report is produced. -/
theorem sendNotification_slotProposal_cap_rejects
    (db : DB) (h uid newId : String) (urow : UserRow) (slot : Slot)
    (ids : List String) (slotId : Option String) (fail : DbFailures)
    (hfind : db.users.find? (fun u => u.id == uid) = some urow)
    (hrole : urow.role = "admin")
    (hlen : ids.length = 11) (hnodup : ids.Nodup) :
    sendNotification db (some h) (some uid)
      ⟨some NotifType.SLOT_PROPOSAL, some slot, some ids, slotId⟩ newId fail
      = ⟨400, db, none⟩ := by
  simp [sendNotification, hfind, hrole, resolveRecipients, hlen]

/-- Example database whose only user is an admin. -/
def exAdminDb : DB :=
  ⟨[⟨"adm", "adm@x.fr", "admin", false⟩], [], [], []⟩

/-- Witness for C3: eleven distinct ids at a concrete database. -/
theorem sendNotification_slotProposal_cap_rejects_witness :
    sendNotification exAdminDb (some "Bearer t") (some "adm")
      ⟨some NotifType.SLOT_PROPOSAL, some exSlot,
        some ["a", "b", "c", "d", "e", "f", "g", "h", "i", "j", "k"], none⟩
      "n9" noDbFailures = ⟨400, exAdminDb, none⟩ :=
  sendNotification_slotProposal_cap_rejects exAdminDb "Bearer t" "adm" "n9"
    ⟨"adm", "adm@x.fr", "admin", false⟩ exSlot
    ["a", "b", "c", "d", "e", "f", "g", "h", "i", "j", "k"] none
    noDbFailures rfl rfl (by decide) (by decide)

/-- C1: a valid SLOT_PROPOSAL dispatch with 1 to 10 distinct recipient ids
creates exactly one notification row and one recipient row per id, each
created recipient row unflagged (received = false, clicked = false, no
clicked_at, no action, no action_at); the delivery loop afterwards only
marks received the rows of recipients that have a push subscription. The
conclusion exhibits the full result state, so the created rows and their
initial field values are explicit in the statement. -/
theorem sendNotification_slotProposal_creates_rows
    (db : DB) (h uid newId : String) (urow : UserRow) (slot : Slot)
    (ids : List String) (slotId : Option String)
    (hfind : db.users.find? (fun u => u.id == uid) = some urow)
    (hrole : urow.role = "admin")
    (hlen1 : 1 ≤ ids.length) (hlen10 : ids.length ≤ 10)
    (hnodup : ids.Nodup) :
    sendNotification db (some h) (some uid)
      ⟨some NotifType.SLOT_PROPOSAL, some slot, some ids, slotId⟩ newId
      noDbFailures
      = ⟨200,
          ⟨db.users, db.push_subscriptions,
            db.notifications ++
              [⟨newId, NotifType.SLOT_PROPOSAL, NotifStatus.UNREAD,
                slot.date, slot.startTime, slot.endTime, slot.location,
                descOrNull slot.description, uid⟩],
            deliverLoop
              (db.notification_recipients ++ ids.map (fun rid =>
                ⟨newId, rid, false, false, none, none, none⟩))
              newId (fetchSubscriptions db ids)⟩,
          some ⟨newId, ids.length, (fetchSubscriptions db ids).length, 0,
            none⟩⟩ ∧
    (deliverLoop
        (db.notification_recipients ++ ids.map (fun rid =>
          ⟨newId, rid, false, false, none, none, none⟩))
        newId (fetchSubscriptions db ids)).length
      = db.notification_recipients.length + ids.length := by
  have h0 : ¬ ids.length = 0 := by omega
  have h10 : ¬ ids.length > 10 := by omega
  constructor
  · simp [sendNotification, hfind, hrole, resolveRecipients, h0, h10,
      noDbFailures]
  · rw [length_deliverLoop]
    simp

/-- Witness for C1: a two-recipient proposal at a concrete database ends in
status 200 with two recipient rows created. -/
theorem sendNotification_slotProposal_creates_rows_witness :
    (sendNotification exAdminDb (some "Bearer t") (some "adm")
      ⟨some NotifType.SLOT_PROPOSAL, some exSlot, some ["u1", "u2"], none⟩
      "n9" noDbFailures).status = 200 ∧
    (sendNotification exAdminDb (some "Bearer t") (some "adm")
      ⟨some NotifType.SLOT_PROPOSAL, some exSlot, some ["u1", "u2"], none⟩
      "n9" noDbFailures).db.notification_recipients.length = 2 := by
  have hw := sendNotification_slotProposal_creates_rows exAdminDb
    "Bearer t" "adm" "n9" ⟨"adm", "adm@x.fr", "admin", false⟩ exSlot
    ["u1", "u2"] none rfl rfl (by decide) (by decide) (by decide)
  refine ⟨by rw [hw.1], ?_⟩
  rw [hw.1]
  simpa using hw.2

/-- C2: an admin SLOT_CANCELLED dispatch for a slot with exactly 3 prior
acceptors yields a delivery report with totalRecipients = 3, and under the
stub push-send step pushNotificationsSent = 3 and failedDeliveries = 0
whenever the fetch returns one subscription row per acceptor, whatever the
contents of those subscription rows are (endpoint and keys are universally
quantified through db, so validity of the subscriptions is irrelevant). -/
theorem sendNotification_slotCancelled_report_stub
    (db : DB) (h uid sid newId : String) (urow : UserRow) (slot : Slot)
    (recipientIds : Option (List String)) (acceptors : List String)
    (hfind : db.users.find? (fun u => u.id == uid) = some urow)
    (hrole : urow.role = "admin")
    (hacc : (db.notification_recipients.filter
        (fun r => r.notification_id == sid
          && r.action == some RecipientAction.ACCEPTED)).map
        (fun r => r.user_id) = acceptors)
    (hlen : acceptors.length = 3)
    (hsubs : (fetchSubscriptions db acceptors).length = 3) :
    (sendNotification db (some h) (some uid)
      ⟨some NotifType.SLOT_CANCELLED, some slot, recipientIds, some sid⟩
      newId noDbFailures).status = 200 ∧
    (sendNotification db (some h) (some uid)
      ⟨some NotifType.SLOT_CANCELLED, some slot, recipientIds, some sid⟩
      newId noDbFailures).report = some ⟨newId, 3, 3, 0, none⟩ := by
  have h0 : ¬ acceptors.length = 0 := by omega
  have hres : sendNotification db (some h) (some uid)
      ⟨some NotifType.SLOT_CANCELLED, some slot, recipientIds, some sid⟩
      newId noDbFailures
      = ⟨200,
          ⟨db.users, db.push_subscriptions,
            db.notifications ++
              [⟨newId, NotifType.SLOT_CANCELLED, NotifStatus.UNREAD,
                slot.date, slot.startTime, slot.endTime, slot.location,
                descOrNull slot.description, uid⟩],
            deliverLoop
              (db.notification_recipients ++ acceptors.map (fun rid =>
                ⟨newId, rid, false, false, none, none, none⟩))
              newId (fetchSubscriptions db acceptors)⟩,
          some ⟨newId, acceptors.length, (fetchSubscriptions db acceptors).length,
            0, none⟩⟩ := by
    simp [sendNotification, hfind, hrole, resolveRecipients, hacc, h0,
      noDbFailures]
  rw [hres]
  simp [hlen, hsubs]

/-- Example database for the cancellation scenario: three acceptors of
notification n0, each with one subscription row holding junk endpoint and
key material, and a fourth recipient who refused. -/
def exCancelPushDb : DB :=
  ⟨[⟨"adm", "adm@x.fr", "admin", false⟩,
      ⟨"u1", "u1@x.fr", "user", false⟩,
      ⟨"u2", "u2@x.fr", "user", false⟩,
      ⟨"u3", "u3@x.fr", "user", false⟩],
    [⟨"s1", "u1", "https://dead.example/1", "junk", "junk", "t0"⟩,
      ⟨"s2", "u2", "not-an-endpoint", "x", "y", "t0"⟩,
      ⟨"s3", "u3", "https://gone.example/3", "k", "a", "t0"⟩],
    [],
    [⟨"n0", "u1", false, false, none, some RecipientAction.ACCEPTED, none⟩,
      ⟨"n0", "u2", false, false, none, some RecipientAction.ACCEPTED, none⟩,
      ⟨"n0", "u3", false, false, none, some RecipientAction.ACCEPTED, none⟩,
      ⟨"n0", "u4", false, false, none, some RecipientAction.REFUSED,
        none⟩]⟩

/-- Witness for C2 at the concrete cancellation scenario database. -/
theorem sendNotification_slotCancelled_report_stub_witness :
    (sendNotification exCancelPushDb (some "Bearer t") (some "adm")
      ⟨some NotifType.SLOT_CANCELLED, some exSlot, none, some "n0"⟩ "n9"
      noDbFailures).status = 200 ∧
    (sendNotification exCancelPushDb (some "Bearer t") (some "adm")
      ⟨some NotifType.SLOT_CANCELLED, some exSlot, none, some "n0"⟩ "n9"
      noDbFailures).report = some ⟨"n9", 3, 3, 0, none⟩ :=
  sendNotification_slotCancelled_report_stub exCancelPushDb "Bearer t"
    "adm" "n0" "n9" ⟨"adm", "adm@x.fr", "admin", false⟩ exSlot none
    ["u1", "u2", "u3"] rfl rfl (by decide) (by decide) (by decide)

/-- C8: when the recipient-rows insert fails after the notification insert
succeeded, the handler responds 500, the notification row stays in the
database, and no recipient row references it (the freshness hypothesis says
the new id was unused before): an orphaned notification with zero
recipients, with no compensating rollback. -/
theorem sendNotification_orphan_on_recipient_insert_failure
    (db : DB) (h uid newId : String) (urow : UserRow) (t : NotifType)
    (slot : Slot) (recipientIds : Option (List String))
    (slotId : Option String) (fail : DbFailures) (ids : List String)
    (hfind : db.users.find? (fun u => u.id == uid) = some urow)
    (hrole : urow.role = "admin")
    (hres : resolveRecipients db ⟨some t, some slot, recipientIds, slotId⟩
      fail = Except.ok ids)
    (hne : ids ≠ [])
    (hnf : fail.notificationInsertFails = false)
    (hrf : fail.recipientsInsertFails = true)
    (hfresh : ∀ r ∈ db.notification_recipients,
      r.notification_id ≠ newId) :
    sendNotification db (some h) (some uid)
      ⟨some t, some slot, recipientIds, slotId⟩ newId fail
      = ⟨500,
          ⟨db.users, db.push_subscriptions,
            db.notifications ++
              [⟨newId, t, NotifStatus.UNREAD, slot.date, slot.startTime,
                slot.endTime, slot.location, descOrNull slot.description,
                uid⟩],
            db.notification_recipients⟩,
          none⟩ ∧
    (sendNotification db (some h) (some uid)
      ⟨some t, some slot, recipientIds, slotId⟩ newId
      fail).db.notification_recipients.filter
        (fun r => r.notification_id == newId) = [] := by
  have h0 : ¬ ids.length = 0 := fun hc =>
    hne (List.length_eq_zero.mp hc)
  have heq : sendNotification db (some h) (some uid)
      ⟨some t, some slot, recipientIds, slotId⟩ newId fail
      = ⟨500,
          ⟨db.users, db.push_subscriptions,
            db.notifications ++
              [⟨newId, t, NotifStatus.UNREAD, slot.date, slot.startTime,
                slot.endTime, slot.location, descOrNull slot.description,
                uid⟩],
            db.notification_recipients⟩,
          none⟩ := by
    simp [sendNotification, hfind, hrole, hres, h0, hnf, hrf]
  refine ⟨heq, ?_⟩
  rw [heq]
  simp only [List.filter_eq_nil_iff]
  intro r hr
  simp only [beq_iff_eq]
  exact hfresh r hr

/-- Failure pattern where only the recipient-rows insert fails. -/
def recipInsertFailure : DbFailures := ⟨false, false, false, true, false⟩

/-- Witness for C8 at a concrete database and request. -/
theorem sendNotification_orphan_on_recipient_insert_failure_witness :
    sendNotification exAdminDb (some "Bearer t") (some "adm")
      ⟨some NotifType.SLOT_PROPOSAL, some exSlot, some ["u1"], none⟩ "n9"
      recipInsertFailure
      = ⟨500,
          ⟨exAdminDb.users, exAdminDb.push_subscriptions,
            exAdminDb.notifications ++
              [⟨"n9", NotifType.SLOT_PROPOSAL, NotifStatus.UNREAD,
                exSlot.date, exSlot.startTime, exSlot.endTime,
                exSlot.location, descOrNull exSlot.description, "adm"⟩],
            exAdminDb.notification_recipients⟩,
          none⟩ ∧
    (sendNotification exAdminDb (some "Bearer t") (some "adm")
      ⟨some NotifType.SLOT_PROPOSAL, some exSlot, some ["u1"], none⟩ "n9"
      recipInsertFailure).db.notification_recipients.filter
        (fun r => r.notification_id == "n9") = [] :=
  sendNotification_orphan_on_recipient_insert_failure exAdminDb "Bearer t"
    "adm" "n9" ⟨"adm", "adm@x.fr", "admin", false⟩ NotifType.SLOT_PROPOSAL
    exSlot (some ["u1"]) none recipInsertFailure ["u1"] rfl rfl rfl
    (by decide) rfl rfl (by decide)

/-- C4: the three client-triggered tracking mutations are idempotent and
frame-respecting. Mark read touches only the status field of the one
notification row with the given id; mark clicked touches only the clicked
flag and clicked_at timestamp of the recipient rows of the targeted
(notification, user) pair; recording an accept or refuse answer touches
only the action and action_at fields of the rows of that pair. Rows outside
the target and the other tables are returned unchanged, and repeating a
mutation with the same arguments changes nothing further. -/
theorem tracking_mutations_idempotent_and_scoped
    (db : DB) (nid uid now : String) (act : RecipientAction) :
    (readUpdate (readUpdate db nid) nid = readUpdate db nid ∧
      (readUpdate db nid).users = db.users ∧
      (readUpdate db nid).push_subscriptions = db.push_subscriptions ∧
      (readUpdate db nid).notification_recipients
        = db.notification_recipients ∧
      List.Forall₂ (fun n m : NotificationRow =>
        (n.id ≠ nid → m = n) ∧ m.id = n.id ∧ m.type = n.type ∧
        m.slot_date = n.slot_date ∧ m.slot_time_start = n.slot_time_start ∧
        m.slot_time_end = n.slot_time_end ∧
        m.slot_location = n.slot_location ∧
        m.slot_description = n.slot_description ∧ m.sent_by = n.sent_by)
        db.notifications (readUpdate db nid).notifications) ∧
    (clickUpdate (clickUpdate db nid uid now) nid uid now
        = clickUpdate db nid uid now ∧
      (clickUpdate db nid uid now).users = db.users ∧
      (clickUpdate db nid uid now).push_subscriptions
        = db.push_subscriptions ∧
      (clickUpdate db nid uid now).notifications = db.notifications ∧
      List.Forall₂ (fun r q : RecipientRow =>
        (¬(r.notification_id = nid ∧ r.user_id = uid) → q = r) ∧
        q.notification_id = r.notification_id ∧ q.user_id = r.user_id ∧
        q.received = r.received ∧ q.action = r.action ∧
        q.action_at = r.action_at)
        db.notification_recipients
        (clickUpdate db nid uid now).notification_recipients) ∧
    (recordAction (recordAction db nid uid act now) nid uid act now
        = recordAction db nid uid act now ∧
      (recordAction db nid uid act now).users = db.users ∧
      (recordAction db nid uid act now).push_subscriptions
        = db.push_subscriptions ∧
      (recordAction db nid uid act now).notifications = db.notifications ∧
      List.Forall₂ (fun r q : RecipientRow =>
        (¬(r.notification_id = nid ∧ r.user_id = uid) → q = r) ∧
        q.notification_id = r.notification_id ∧ q.user_id = r.user_id ∧
        q.received = r.received ∧ q.clicked = r.clicked ∧
        q.clicked_at = r.clicked_at)
        db.notification_recipients
        (recordAction db nid uid act now).notification_recipients) := by
  refine ⟨⟨?_, rfl, rfl, rfl, ?_⟩, ⟨?_, rfl, rfl, rfl, ?_⟩,
    ⟨?_, rfl, rfl, rfl, ?_⟩⟩
  · simp only [readUpdate]
    congr 1
    apply map_idem_of_pointwise
    intro n _
    by_cases hb : n.id == nid
    · simp [hb]
    · simp [hb]
  · simp only [readUpdate]
    apply forall₂_map_self
    intro n _
    by_cases hb : n.id == nid
    · have hid : n.id = nid := beq_iff_eq.mp hb
      simp [hb, hid]
    · simp [hb]
  · simp only [clickUpdate]
    congr 1
    apply map_idem_of_pointwise
    intro r _
    by_cases hb : r.notification_id == nid && r.user_id == uid
    · simp [hb]
    · simp [hb]
  · simp only [clickUpdate]
    apply forall₂_map_self
    intro r _
    by_cases hb : r.notification_id == nid && r.user_id == uid
    · have hp : r.notification_id = nid ∧ r.user_id = uid := by
        simpa only [Bool.and_eq_true, beq_iff_eq] using hb
      simp [hb, hp.1, hp.2]
    · simp [hb]
  · simp only [recordAction, updateNotificationRecipient]
    congr 1
    apply map_idem_of_pointwise
    intro r _
    by_cases hb : r.notification_id == nid && r.user_id == uid
    · simp [hb, applyRecipientUpdates]
    · simp [hb]
  · simp only [recordAction, updateNotificationRecipient]
    apply forall₂_map_self
    intro r _
    by_cases hb : r.notification_id == nid && r.user_id == uid
    · have hp : r.notification_id = nid ∧ r.user_id = uid := by
        simpa only [Bool.and_eq_true, beq_iff_eq] using hb
      simp [hb, hp.1, hp.2, applyRecipientUpdates]
    · simp [hb]

/-- Example database used by the tracking witness. -/
def exTrackDb : DB :=
  ⟨[], [],
    [⟨"n1", NotifType.SLOT_PROPOSAL, NotifStatus.UNREAD, "2025-06-01",
        "10:00", "12:00", "Paris 15e", none, "adm"⟩],
    [⟨"n1", "u1", false, false, none, none, none⟩,
      ⟨"n1", "u2", false, false, none, none, none⟩]⟩

/-- Witness for C4: idempotence of the three mutations at a concrete
database. -/
theorem tracking_mutations_idempotent_and_scoped_witness :
    readUpdate (readUpdate exTrackDb "n1") "n1" = readUpdate exTrackDb "n1" ∧
    clickUpdate (clickUpdate exTrackDb "n1" "u1" "t1") "n1" "u1" "t1"
      = clickUpdate exTrackDb "n1" "u1" "t1" ∧
    recordAction
      (recordAction exTrackDb "n1" "u1" RecipientAction.ACCEPTED "t1")
      "n1" "u1" RecipientAction.ACCEPTED "t1"
      = recordAction exTrackDb "n1" "u1" RecipientAction.ACCEPTED "t1" :=
  ⟨(tracking_mutations_idempotent_and_scoped exTrackDb "n1" "u1" "t1"
      RecipientAction.ACCEPTED).1.1,
    (tracking_mutations_idempotent_and_scoped exTrackDb "n1" "u1" "t1"
      RecipientAction.ACCEPTED).2.1.1,
    (tracking_mutations_idempotent_and_scoped exTrackDb "n1" "u1" "t1"
      RecipientAction.ACCEPTED).2.2.1⟩

/-- C9: subscribing with an endpoint that already has a row refreshes only
the last_used_at of that row, creates no new row, keeps endpoint uniqueness, and
responds 200 with the existing id; subscribing with an unknown endpoint
appends one new row and responds 201 with its id, preserving endpoint
uniqueness. -/
theorem subscribe_endpoint_uniqueness
    (db : DB) (h uid : String) (payload : SubscribePayload)
    (newId now : String)
    (hep : payload.endpoint ≠ "") (hp : payload.p256dh ≠ "")
    (ha : payload.auth ≠ "")
    (hnodup : (db.push_subscriptions.map (fun s => s.endpoint)).Nodup) :
    (∀ existing, db.push_subscriptions.find?
        (fun s => s.endpoint == payload.endpoint) = some existing →
      (subscribe db (some h) (some uid) payload newId now false).status
          = 200 ∧
      (subscribe db (some h) (some uid) payload newId now
          false).returnedId = some existing.id ∧
      (subscribe db (some h) (some uid) payload newId now false).db.users
          = db.users ∧
      (subscribe db (some h) (some uid) payload newId now
          false).db.notifications = db.notifications ∧
      (subscribe db (some h) (some uid) payload newId now
          false).db.notification_recipients
          = db.notification_recipients ∧
      (subscribe db (some h) (some uid) payload newId now
          false).db.push_subscriptions.length
          = db.push_subscriptions.length ∧
      List.Forall₂ (fun s q : SubscriptionRow =>
        (s.endpoint ≠ payload.endpoint → q = s) ∧
        q.id = s.id ∧ q.user_id = s.user_id ∧ q.endpoint = s.endpoint ∧
        q.p256dh_key = s.p256dh_key ∧ q.auth_key = s.auth_key ∧
        (s.endpoint = payload.endpoint → q.last_used_at = now))
        db.push_subscriptions
        (subscribe db (some h) (some uid) payload newId now
          false).db.push_subscriptions ∧
      ((subscribe db (some h) (some uid) payload newId now
          false).db.push_subscriptions.map (fun s => s.endpoint)).Nodup) ∧
    (db.push_subscriptions.find?
        (fun s => s.endpoint == payload.endpoint) = none →
      (subscribe db (some h) (some uid) payload newId now false).status
          = 201 ∧
      (subscribe db (some h) (some uid) payload newId now
          false).returnedId = some newId ∧
      (subscribe db (some h) (some uid) payload newId now false).db.users
          = db.users ∧
      (subscribe db (some h) (some uid) payload newId now
          false).db.notifications = db.notifications ∧
      (subscribe db (some h) (some uid) payload newId now
          false).db.notification_recipients
          = db.notification_recipients ∧
      (subscribe db (some h) (some uid) payload newId now
          false).db.push_subscriptions
          = db.push_subscriptions ++
            [⟨newId, uid, payload.endpoint, payload.p256dh, payload.auth,
              now⟩] ∧
      ((subscribe db (some h) (some uid) payload newId now
          false).db.push_subscriptions.map (fun s => s.endpoint)).Nodup) := by
  have hcond : ¬(payload.endpoint = "" ∨ payload.p256dh = ""
      ∨ payload.auth = "") := by
    (push_neg); exact ⟨hep, hp, ha⟩
  constructor
  · intro existing hfound
    have heq : subscribe db (some h) (some uid) payload newId now false
        = ⟨200,
            { db with push_subscriptions := db.push_subscriptions.map (fun s =>
                  if s.endpoint == payload.endpoint then
                    { s with last_used_at := now }
                  else s) },
            some existing.id⟩ := by
      simp [subscribe, hcond, hfound]
    rw [heq]
    have hmapend : (db.push_subscriptions.map (fun s =>
        if s.endpoint == payload.endpoint then
          { s with last_used_at := now }
        else s)).map (fun s => s.endpoint)
        = db.push_subscriptions.map (fun s => s.endpoint) := by
      rw [List.map_map]
      apply List.map_congr_left
      intro s _
      by_cases hb : s.endpoint = payload.endpoint
      · simp [hb]
      · simp [hb]
    refine ⟨rfl, rfl, rfl, rfl, rfl, by simp, ?_, ?_⟩
    · apply forall₂_map_self
      intro s _
      by_cases hb : s.endpoint = payload.endpoint
      · simp [hb]
      · simp [hb]
    · exact hmapend.symm ▸ hnodup
  · intro hnone
    have heq : subscribe db (some h) (some uid) payload newId now false
        = ⟨201,
            { db with push_subscriptions := db.push_subscriptions ++
                [⟨newId, uid, payload.endpoint, payload.p256dh,
                  payload.auth, now⟩] },
            some newId⟩ := by
      simp [subscribe, hcond, hnone]
    rw [heq]
    refine ⟨rfl, rfl, rfl, rfl, rfl, rfl, ?_⟩
    have hnotin : ∀ s ∈ db.push_subscriptions,
        s.endpoint ≠ payload.endpoint := by
      intro s hs
      have := List.find?_eq_none.mp hnone s hs
      simpa using this
    simp only [List.map_append, List.map_cons, List.map_nil]
    rw [List.nodup_append]
    refine ⟨hnodup, List.nodup_singleton _, ?_⟩
    intro e he hmem
    rcases List.mem_map.mp he with ⟨s, hs, hse⟩
    rcases List.mem_singleton.mp hmem with rfl
    exact hnotin s hs hse

/-- Example database with one registered push subscription. -/
def exSubDb : DB :=
  ⟨[⟨"u1", "u1@x.fr", "user", false⟩],
    [⟨"s1", "u1", "https://push.example/ep1", "k1", "a1", "t0"⟩], [], []⟩

/-- Witness for C9: re-registering a known endpoint gives 200 with no new
row, registering an unknown endpoint gives 201. -/
theorem subscribe_endpoint_uniqueness_witness :
    (subscribe exSubDb (some "Bearer t") (some "u1")
      ⟨"https://push.example/ep1", "k1", "a1"⟩ "s9" "t1" false).status
      = 200 ∧
    (subscribe exSubDb (some "Bearer t") (some "u1")
      ⟨"https://push.example/ep1", "k1", "a1"⟩ "s9" "t1"
      false).db.push_subscriptions.length = 1 ∧
    (subscribe exSubDb (some "Bearer t") (some "u1")
      ⟨"https://push.example/ep2", "k1", "a1"⟩ "s9" "t1" false).status
      = 201 := by
  have hw := subscribe_endpoint_uniqueness exSubDb "Bearer t" "u1"
    ⟨"https://push.example/ep1", "k1", "a1"⟩ "s9" "t1" (by decide)
    (by decide) (by decide) (by decide)
  have hw2 := subscribe_endpoint_uniqueness exSubDb "Bearer t" "u1"
    ⟨"https://push.example/ep2", "k1", "a1"⟩ "s9" "t1" (by decide)
    (by decide) (by decide) (by decide)
  have h1 := hw.1 ⟨"s1", "u1", "https://push.example/ep1", "k1", "a1", "t0"⟩
    rfl
  have h2 := hw2.2 rfl
  exact ⟨h1.1, h1.2.2.2.2.2.1, h2.1⟩

/-- C10: the track-click handler performs no authentication check (its
result does not depend on the authorization header, which it never reads)
and, when both body fields are present but no recipient row matches the
(notification, user) pair, it still responds 200 and leaves the database
unchanged. -/
theorem trackClick_no_auth_and_missing_row_ok
    (db : DB) (h1 h2 : Option String) (nid uid now : String)
    (hn : nid ≠ "") (hu : uid ≠ "")
    (hnomatch : ∀ r ∈ db.notification_recipients,
      ¬(r.notification_id = nid ∧ r.user_id = uid)) :
    trackClick db h1 nid uid now false
      = trackClick db h2 nid uid now false ∧
    (trackClick db h1 nid uid now false).status = 200 ∧
    (trackClick db h1 nid uid now false).db = db := by
  have hcond : ¬(nid = "" ∨ uid = "") := by push_neg; exact ⟨hn, hu⟩
  have hmap : db.notification_recipients.map (fun r =>
      if r.notification_id == nid && r.user_id == uid then
        { r with clicked := true, clicked_at := some now }
      else r) = db.notification_recipients := by
    have hpt : ∀ r ∈ db.notification_recipients, (fun r : RecipientRow =>
        if r.notification_id == nid && r.user_id == uid then
          { r with clicked := true, clicked_at := some now }
        else r) r = id r := by
      intro r hr
      have hfalse : ¬(r.notification_id == nid && r.user_id == uid)
          = true := by
        simp only [Bool.and_eq_true, beq_iff_eq]
        exact fun hc => hnomatch r hr hc
      simp [hfalse]
    rw [List.map_congr_left hpt, List.map_id]
  refine ⟨rfl, ?_, ?_⟩
  · simp [trackClick, hcond]
  · have hclick : clickUpdate db nid uid now = db := by
      simp only [clickUpdate, hmap]
    simp [trackClick, hcond, hclick]

/-- Witness for C10: same result with and without a header, 200 and an
unchanged state for a pair with no matching row at a concrete database. -/
theorem trackClick_no_auth_and_missing_row_ok_witness :
    trackClick exTrackDb none "nZ" "uZ" "t1" false
      = trackClick exTrackDb (some "Bearer t") "nZ" "uZ" "t1" false ∧
    (trackClick exTrackDb none "nZ" "uZ" "t1" false).status = 200 ∧
    (trackClick exTrackDb none "nZ" "uZ" "t1" false).db = exTrackDb :=
  trackClick_no_auth_and_missing_row_ok exTrackDb none (some "Bearer t")
    "nZ" "uZ" "t1" (by decide) (by decide) (by decide)
